import Mathlib

/-!
Verification of the account-lifecycle views of `user_map/views.py`
(registration, e-mail confirmation, login, profile update, password reset,
and the public role-filtered user listing).

The views are shallowly embedded as pure Lean functions over an explicit
database (a list of `User` rows).  Python byte strings are `List Nat` (byte
values), exceptions are an explicit `PyExc` sum threaded through `Except`,
and each handler returns the rendered outcome together with the database
after the request.  Library functions the views call (Django's
`urlsafe_base64_decode`, the ORM's `get`, Python's `int`) are modelled from
their library semantics; collaborators whose code is outside this module
(forms, the authentication backend, the mail transport, the JSON template)
are modelled from the specification, and each such definition says so in its
doc comment.
-/

namespace UserMap

/-- The Python / Django exception kinds the embedded code can raise. -/
inductive PyExc where
  | typeError
  | valueError
  | overflowError
  | doesNotExist
  | multipleObjectsReturned
  | keyError
  | smtpError
deriving Repr, BEq, DecidableEq

/-- One row of the `User` model: primary key, display name, login e-mail,
password digest, role code, the confirmation / active flags and the
confirmation key (`user.key` in the source). -/
structure User where
  pk : Nat
  name : String
  email : String
  password_hash : String
  role : Int
  is_confirmed : Bool
  is_active : Bool
  key : String
deriving Repr, BEq, DecidableEq

/-- Value of a character for `binascii.a2b_base64` after Django's urlsafe
translation (`-` → `+`, `_` → `/`): the standard alphabet plus the urlsafe
pair.  `none` for every other character — Python 2's `a2b_base64` silently
skips characters outside the alphabet. -/
def b64Val (c : Char) : Option Nat :=
  if 65 ≤ c.toNat ∧ c.toNat ≤ 90 then some (c.toNat - 65)
  else if 97 ≤ c.toNat ∧ c.toNat ≤ 122 then some (c.toNat - 97 + 26)
  else if 48 ≤ c.toNat ∧ c.toNat ≤ 57 then some (c.toNat - 48 + 52)
  else if c = '+' ∨ c = '-' then some 62
  else if c = '/' ∨ c = '_' then some 63
  else none

/-- `binascii_find_valid`: the next character that is in the base64 table or
is the pad character, used by the pad lookahead of `a2b_base64`. -/
def findValidB64 : List Char → Option Char
  | [] => none
  | c :: rest => if (b64Val c).isSome ∨ c = '=' then some c else findValidB64 rest

/-- The decode loop of Python 2's `binascii.a2b_base64` (CPython 2
`Modules/binascii.c`): characters outside the alphabet are skipped; a pad
character ends decoding when the quad position is ≥ 3, or is 2 with another
pad as the next valid character, and is ignored otherwise; six bits are
accumulated per alphabet character and a byte is emitted whenever eight are
available; leftover bits at the end of input raise `Error: Incorrect padding`
(re-raised by Django as `ValueError`).  State: accumulated bits value,
number of accumulated bits, position inside the current quad, output bytes
in reverse. -/
def a2b_base64_loop : List Char → Nat → Nat → Nat → List Nat → Except PyExc (List Nat)
  | [], _, leftbits, _, acc =>
    if leftbits ≠ 0 then Except.error PyExc.valueError else Except.ok acc.reverse
  | c :: rest, leftchar, leftbits, quadPos, acc =>
    if c = '=' then
      if quadPos < 2 ∨ (quadPos = 2 ∧ findValidB64 rest ≠ some '=') then
        a2b_base64_loop rest leftchar leftbits quadPos acc
      else
        Except.ok acc.reverse
    else
      match b64Val c with
      | none => a2b_base64_loop rest leftchar leftbits quadPos acc
      | some v =>
        let leftchar2 := leftchar * 64 + v
        let leftbits2 := leftbits + 6
        let quadPos2 := (quadPos + 1) % 4
        if 8 ≤ leftbits2 then
          a2b_base64_loop rest (leftchar2 % 2 ^ (leftbits2 - 8)) (leftbits2 - 8) quadPos2
            ((leftchar2 / 2 ^ (leftbits2 - 8) % 256) :: acc)
        else
          a2b_base64_loop rest leftchar2 leftbits2 quadPos2 acc

/-- Django 1.6 `django.utils.http.urlsafe_base64_decode`: pad the input with
`len(s) % 4` `=` characters (`s.ljust(len(s) + len(s) % 4, b"=")`) and feed
it to `base64.urlsafe_b64decode`; a `binascii.Error` is re-raised as
`ValueError`. -/
def urlsafe_base64_decode (s : String) : Except PyExc (List Nat) :=
  a2b_base64_loop (s.data ++ List.replicate (s.length % 4) '=') 0 0 0 []

/-- Python whitespace stripped by `int()` before parsing. -/
def isPySpace (b : Nat) : Bool :=
  b = 32 || b = 9 || b = 10 || b = 13 || b = 11 || b = 12

/-- Leading sign of a Python integer literal: `(negative, remaining digits)`. -/
def pySignSplit : List Nat → Bool × List Nat
  | 43 :: rest => (false, rest)
  | 45 :: rest => (true, rest)
  | bs => (false, bs)

/-- Python 2 `int()` applied to a (byte) string: strip surrounding
whitespace, allow one optional sign, then require a non-empty run of decimal
digits; anything else raises `ValueError`. -/
def pyInt (bs : List Nat) : Except PyExc Int :=
  let core := (((bs.dropWhile isPySpace).reverse).dropWhile isPySpace).reverse
  let signed := pySignSplit core
  if signed.2 ≠ [] ∧ signed.2.all (fun b => 48 ≤ b ∧ b ≤ 57) then
    let n : Nat := signed.2.foldl (fun acc b => acc * 10 + (b - 48)) 0
    Except.ok (if signed.1 then -(n : Int) else (n : Int))
  else
    Except.error PyExc.valueError

/-- `User.objects.get(pk=value)`: the ORM coerces the raw value to an
integer (raising `ValueError` / `TypeError` on failure), then returns the
single matching row, raising `User.DoesNotExist` when there is none and
`MultipleObjectsReturned` when there are several. -/
def objects_get (db : List User) (pkBytes : List Nat) : Except PyExc User :=
  match pyInt pkBytes with
  | Except.error e => Except.error e
  | Except.ok n =>
    match db.filter (fun u => (u.pk : Int) == n) with
    | [] => Except.error PyExc.doesNotExist
    | [u] => Except.ok u
    | _ :: _ :: _ => Except.error PyExc.multipleObjectsReturned

/-- Information text rendered on the successful-confirmation page. -/
def confirmedInfo : String :=
  "Congratulations! Your account has been successfully confirmed. " ++
  "Please continue to log in."

/-- Information text rendered for an invalid confirmation link. -/
def invalidLinkInfo : String :=
  "Your link is not valid. Please make sure that you use " ++
  "confirmation link we sent to your email."

/-- Information text rendered when the account is already confirmed. -/
def alreadyConfirmedInfo : String :=
  "Your account is already confirmed. Please continue to log in."

/-- Outcome of a confirmation request: the information text rendered on the
page, the database after the request and the number of `save` calls the
request performed. -/
structure ConfirmResult where
  information : String
  db : List User
  writes : Nat
deriving Repr, BEq, DecidableEq

/-- `user.is_confirmed = True` followed by
`user.save(update_fields=["is_confirmed"])`: persist `is_confirmed := true`
for the row with the given primary key and touch nothing else. -/
def save_is_confirmed (db : List User) (pk : Nat) : List User :=
  db.map (fun u => if u.pk = pk then { u with is_confirmed := true } else u)

/-- The exception tuple of the `except` clause in `confirm_registration`:
`(TypeError, ValueError, OverflowError, User.DoesNotExist)`. -/
def caughtByConfirm (e : PyExc) : Bool :=
  e == PyExc.typeError || e == PyExc.valueError ||
  e == PyExc.overflowError || e == PyExc.doesNotExist

/-- The view `confirm_registration(request, uid, key)` (views.py 158-201).
`urlsafe_base64_decode(uid)` runs before the `try:` block, so a `ValueError`
it raises propagates out of the handler; inside the block, `User.objects.get`
runs, an unconfirmed user with a matching key is confirmed and saved, and
the `except (TypeError, ValueError, OverflowError, User.DoesNotExist)`
clause turns those four exceptions into the invalid-link page. -/
def confirm_registration (db : List User) (uid key : String) :
    Except PyExc ConfirmResult :=
  match urlsafe_base64_decode uid with
  | Except.error e => Except.error e
  | Except.ok decoded_uid =>
    match objects_get db decoded_uid with
    | Except.ok user =>
      if !user.is_confirmed then
        if user.key = key then
          Except.ok ⟨confirmedInfo, save_is_confirmed db user.pk, 1⟩
        else
          Except.ok ⟨invalidLinkInfo, db, 0⟩
      else
        Except.ok ⟨alreadyConfirmedInfo, db, 0⟩
    | Except.error e =>
      if caughtByConfirm e then Except.ok ⟨invalidLinkInfo, db, 0⟩
      else Except.error e

/-! ### The specification-side view of confirmation (§4.2) -/

/-- The spec's `VerifyResult` for confirmation: `Confirmed`,
`AlreadyConfirmed`, `InvalidLink`. -/
inductive VerifyResult where
  | Confirmed
  | AlreadyConfirmed
  | InvalidLink
deriving Repr, BEq, DecidableEq

/-- The primary key an encoded uid stands for: codec decode followed by the
integer parse, `none` when either step fails. -/
def decodedPk (uid : String) : Option Int :=
  match urlsafe_base64_decode uid with
  | Except.error _ => none
  | Except.ok bs =>
    match pyInt bs with
    | Except.error _ => none
    | Except.ok n => some n

/-- First account with the given (integer) primary key. -/
def findByPk (db : List User) (n : Int) : Option User :=
  db.find? (fun u => (u.pk : Int) == n)

/-- First account with the given (natural) primary key. -/
def lookupPk (db : List User) (pk : Nat) : Option User :=
  db.find? (fun u => u.pk == pk)

/-- The database respects the primary-key constraint: no two rows share a
primary key. -/
def uniquePks (db : List User) : Prop := (db.map User.pk).Nodup

instance (db : List User) : Decidable (uniquePks db) := by
  unfold uniquePks
  infer_instance

/-- The spec's `verify(encoded_id, submitted_key)` (§4.2), amended only in
the decode-failure case to what the code does: a uid on which the codec's
decode raises propagates the raised `ValueError` instead of producing
`InvalidLink`; a decoded-but-malformed identifier, a missing account and a
key mismatch give `InvalidLink`; an already-confirmed account gives
`AlreadyConfirmed`; an unconfirmed account with the matching key gives
`Confirmed`. -/
def verify_spec (db : List User) (uid key : String) : Except PyExc VerifyResult :=
  match urlsafe_base64_decode uid with
  | Except.error e => Except.error e
  | Except.ok bs =>
    match pyInt bs with
    | Except.error _ => Except.ok VerifyResult.InvalidLink
    | Except.ok n =>
      match findByPk db n with
      | none => Except.ok VerifyResult.InvalidLink
      | some u =>
        if u.is_confirmed then Except.ok VerifyResult.AlreadyConfirmed
        else if u.key = key then Except.ok VerifyResult.Confirmed
        else Except.ok VerifyResult.InvalidLink

/-- Mark the account the uid stands for as confirmed; identity when the uid
stands for no primary key. -/
def setConfirmedByUid (db : List User) (uid : String) : List User :=
  match decodedPk uid with
  | some n =>
    db.map (fun u => if (u.pk : Int) == n then { u with is_confirmed := true } else u)
  | none => db

/-- The spec's observable reading of a `VerifyResult` (§4.2): the page each
outcome renders, the persistence effect of each path (one write of
`is_confirmed` for `Confirmed`, none otherwise), and a propagated decode
error. -/
def renderVerify (db : List User) (uid key : String) : Except PyExc ConfirmResult :=
  match verify_spec db uid key with
  | Except.error e => Except.error e
  | Except.ok VerifyResult.InvalidLink => Except.ok ⟨invalidLinkInfo, db, 0⟩
  | Except.ok VerifyResult.AlreadyConfirmed => Except.ok ⟨alreadyConfirmedInfo, db, 0⟩
  | Except.ok VerifyResult.Confirmed =>
    Except.ok ⟨confirmedInfo, setConfirmedByUid db uid, 1⟩

/-! ### The public listing view -/

/-- Modelled from the spec: one record of the `users.json` serialisation
(the template is not under src/) — `{id, role, display-relevant fields}`,
never `password_hash` or `confirmation_key` (§6). -/
structure PublicUser where
  pk : Nat
  role : Int
  name : String
deriving Repr, BEq, DecidableEq

/-- Modelled from the spec: serialise one account for the public listing. -/
def serializeUser (u : User) : PublicUser := ⟨u.pk, u.role, u.name⟩

/-- `request.GET[k]`: the query-string parameter, `none` standing for the
`KeyError` of a missing key. -/
def getParam (params : List (String × String)) (k : String) : Option String :=
  (params.find? (fun p => p.1 == k)).map (fun p => p.2)

/-- Python `int()` applied to a text value. -/
def pyIntOfString (s : String) : Except PyExc Int :=
  pyInt (s.data.map Char.toNat)

/-- The view `get_users(request)` (views.py 79-105):
`int(request.GET["user_role"])` — `KeyError` when the parameter is absent,
`ValueError` when it is not an integer literal, both uncaught — then
`User.objects.filter(role=user_role, is_confirmed=True, is_active=True)`
rendered through the users.json template. -/
def get_users (db : List User) (params : List (String × String)) :
    Except PyExc (List PublicUser) :=
  match getParam params "user_role" with
  | none => Except.error PyExc.keyError
  | some s =>
    match pyIntOfString s with
    | Except.error e => Except.error e
    | Except.ok user_role =>
      Except.ok
        ((db.filter (fun u => (u.role == user_role) && u.is_confirmed && u.is_active)).map
          serializeUser)

/-! ### The login view -/

/-- Modelled from the spec: the one-way salted password-hashing primitive
(§6, an external collaborator), modelled as an injective tagging of the
plaintext. -/
def make_password (p : String) : String := "pbkdf2$" ++ p

/-- Modelled from the spec: `verify(plaintext, hash)` of the hashing
primitive: the stored digest matches the digest of the submitted
plaintext. -/
def check_password (p h : String) : Bool := make_password p == h

/-- Modelled from the spec: the authentication backend behind
`authenticate(email=..., password=...)` (not under src/): the account whose
e-mail matches, provided the password verifies against its stored hash;
`None` otherwise. -/
def authenticate (db : List User) (email password : String) : Option User :=
  match db.find? (fun u => u.email == email) with
  | some u => if check_password password u.password_hash then some u else none
  | none => none

/-- Modelled from the spec: `LoginForm` field validation (forms.py is not
under src/); malformed-input validation is out of the core's scope (§7), so
it is modelled as both fields being present. -/
def loginFormValid (email password : String) : Bool :=
  email != "" && password != ""

/-- Non-field error appended for an inactive account. -/
def inactiveError : String :=
  "The user is not active. Please contact our administrator to resolve this."

/-- Non-field error appended for an unconfirmed account. -/
def unconfirmedError : String :=
  "Please confirm you registration email first!"

/-- Non-field error appended when `authenticate` returns `None`. -/
def badCredentialsError : String :=
  "Please enter a correct email and password. " ++
  "Note that both fields may be case-sensitive."

/-- URL of `reverse("user_map:index")`, the default redirect target. -/
def indexUrl : String := "/user-map/"

/-- Observable outcome of the login view: `session pk next` records that
`django_login(request, user)` ran for the account `pk` (a session was
issued) followed by a redirect to `next`; `render errors` re-renders the
login page with the listed non-field errors and no session. -/
inductive LoginOutcome where
  | session (pk : Nat) (next : String)
  | render (errors : List String)
deriving Repr, BEq, DecidableEq

/-- The view `login(request)` (views.py 204-249): on a valid POST,
`authenticate`; a returned account that is active and confirmed is logged in
and redirected; otherwise the matching account-state errors are appended
(both, when both flags are off); a `None` account appends the
bad-credentials error. -/
def login (db : List User) (isPost : Bool) (nextParam : String)
    (email password : String) : LoginOutcome :=
  if isPost then
    let next_page := if nextParam = "" then indexUrl else nextParam
    if loginFormValid email password then
      match authenticate db email password with
      | some user =>
        if user.is_active && user.is_confirmed then
          LoginOutcome.session user.pk next_page
        else
          LoginOutcome.render
            ((if !user.is_active then [inactiveError] else []) ++
             (if !user.is_confirmed then [unconfirmedError] else []))
      | none => LoginOutcome.render [badCredentialsError]
    else
      LoginOutcome.render []
  else
    LoginOutcome.render []

/-! ### The registration view -/

/-- The fields a registration submits. -/
structure RegForm where
  name : String
  email : String
  password : String
  role : Int
deriving Repr, BEq, DecidableEq

/-- Modelled from the spec: `UserForm` validation (forms.py is not under
src/): the required fields are present and the e-mail is not already taken
(§3: exactly one Account per e-mail). -/
def userFormValid (db : List User) (f : RegForm) : Bool :=
  f.name != "" && f.email != "" && f.password != "" &&
  db.all (fun u => u.email != f.email)

/-- Modelled from the spec: persistence assigns a fresh primary key at
creation (§3: `id` assigned at creation). -/
def nextPk (db : List User) : Nat := (db.map User.pk).foldr max 0 + 1

/-- Modelled from the spec: `form.save()` of the registration form creates
the account row — fresh id, the submitted profile fields, the hashed
password, `is_confirmed = false` and active (§4.4: `register() ->
Unconfirmed ∧ Active`), and the freshly generated confirmation key
(§4.2 `issue`). -/
def form_save (db : List User) (f : RegForm) (genKey : String) : User :=
  ⟨nextPk db, f.name, f.email, make_password f.password, f.role, false, true, genKey⟩

/-- Outcome of a registration request: the database after the request and
the rendered outcome (or the propagated exception). -/
structure RegisterResult where
  db : List User
  outcome : Except PyExc String
deriving Repr

/-- Success flash message of the registration view. -/
def registerSuccessRedirect : String := "redirect: user_map:register"

/-- Marker for re-rendering the registration form. -/
def registrationFormPage : String := "user_map/account/registration.html"

/-- The view `register(request)` (views.py 108-155): on a valid POST the
form is saved — the account row is created — then the confirmation e-mail is
sent with `fail_silently=False`; a mail-transport failure (`mailFails`, the
outcome of the external mail collaborator of §6) raises out of the handler
after the account was persisted, with no rollback; on success the user is
redirected back to the registration page. -/
def register (db : List User) (isPost : Bool) (f : RegForm) (genKey : String)
    (mailFails : Bool) : RegisterResult :=
  if isPost then
    if userFormValid db f then
      let user := form_save db f genKey
      let db2 := db ++ [user]
      if mailFails then ⟨db2, Except.error PyExc.smtpError⟩
      else ⟨db2, Except.ok registerSuccessRedirect⟩
    else ⟨db, Except.ok registrationFormPage⟩
  else ⟨db, Except.ok registrationFormPage⟩

/-! ### Profile and password mutation, and the operations of the module -/

/-- Modelled from the spec: `BasicInformationForm.save()` (forms.py is not
under src/) — a profile edit mutates the e-mail / name fields of the
signed-in account (§3 Lifecycle: "mutated ... by profile edit (email/name
fields)"). -/
def basic_info_save (db : List User) (pk : Nat) (email name : String) : List User :=
  db.map (fun u => if u.pk = pk then { u with email := email, name := name } else u)

/-- Modelled from the spec: a password change (`PasswordForm.save()`) or a
password-reset `consume` stores a new password hash for the account
(§3 Lifecycle, §4.3). -/
def password_save (db : List User) (pk : Nat) (newHash : String) : List User :=
  db.map (fun u => if u.pk = pk then { u with password_hash := newHash } else u)

/-- One request handled by this module, as it acts on the account database:
confirmation and registration are the embedded views; profile update,
password change and password reset delegate to the (spec-modelled) form
saves; login and the public listing never write. -/
inductive Op where
  | confirmOp (uid key : String)
  | registerOp (f : RegForm) (genKey : String) (mailFails : Bool)
  | basicInfoOp (pk : Nat) (email name : String)
  | passwordOp (pk : Nat) (newHash : String)
  | passwordResetOp (pk : Nat) (newHash : String)
  | loginOp (email password : String)
  | listOp (params : List (String × String))

/-- The database after one request (a handler that raises leaves the
database as the writes it performed before raising left it; for
confirmation the raise happens before any write). -/
def applyOp (db : List User) : Op → List User
  | Op.confirmOp uid key =>
    match confirm_registration db uid key with
    | Except.ok r => r.db
    | Except.error _ => db
  | Op.registerOp f genKey mailFails => (register db true f genKey mailFails).db
  | Op.basicInfoOp pk email name => basic_info_save db pk email name
  | Op.passwordOp pk newHash => password_save db pk newHash
  | Op.passwordResetOp pk newHash => password_save db pk newHash
  | Op.loginOp _ _ => db
  | Op.listOp _ => db

/-- An account row with its `is_confirmed` flag blanked: two databases agree
through `stripConfirm` exactly when nothing outside the `is_confirmed`
column differs. -/
def stripConfirm (u : User) : User := { u with is_confirmed := false }

/-! ## Helper lemmas -/

/-- `pyInt` raises nothing but `ValueError`. -/
theorem pyInt_error_eq {bs : List Nat} {e : PyExc} (h : pyInt bs = Except.error e) :
    e = PyExc.valueError := by
  simp only [pyInt] at h
  split at h
  · simp at h
  · injection h with h2
    exact h2.symm

/-- When a filter keeps exactly one element, `find?` returns it. -/
theorem find?_of_filter_single {α : Type} {p : α → Bool} :
    ∀ {l : List α} {u : α}, l.filter p = [u] → l.find? p = some u := by
  intro l
  induction l with
  | nil => intro u h; simp at h
  | cons a t ih =>
    intro u h
    by_cases hp : p a
    · rw [List.filter_cons_of_pos hp] at h
      injection h with h1 h2
      subst h1
      exact List.find?_cons_of_pos t hp
    · rw [List.filter_cons_of_neg hp] at h
      rw [List.find?_cons_of_neg t hp]
      exact ih h

/-- Under the primary-key constraint, filtering by a primary key keeps at
most one row. -/
theorem filter_pk_of_uniquePks {db : List User} (h : uniquePks db) (n : Int) :
    db.filter (fun u => (u.pk : Int) == n) = [] ∨
    ∃ u, db.filter (fun u => (u.pk : Int) == n) = [u] := by
  induction db with
  | nil => exact Or.inl rfl
  | cons a t ih =>
    have hmem : a.pk ∉ t.map User.pk := by
      have := h
      simp only [uniquePks, List.map_cons, List.nodup_cons] at this
      exact this.1
    have ht : uniquePks t := by
      have := h
      simp only [uniquePks, List.map_cons, List.nodup_cons] at this
      exact this.2
    by_cases hp : ((a.pk : Int) == n) = true
    · right
      refine ⟨a, ?_⟩
      rw [List.filter_cons, if_pos hp]
      have : t.filter (fun u => (u.pk : Int) == n) = [] := by
        rw [List.filter_eq_nil_iff]
        intro v hv hvp
        apply hmem
        have hv1 : (v.pk : Int) = n := by simpa using hvp
        have ha1 : (a.pk : Int) = n := by simpa using hp
        have : v.pk = a.pk := by
          have h2 : (v.pk : Int) = (a.pk : Int) := by rw [hv1, ha1]
          exact_mod_cast h2
        rw [← this]
        exact List.mem_map_of_mem User.pk hv
      rw [this]
    · rw [List.filter_cons, if_neg hp]
      exact ih ht

/-- `save_is_confirmed` written as the map `setConfirmedByUid` performs when
the uid stands for the saved user's primary key. -/
theorem save_is_confirmed_eq_map {u : User} {n : Int} (hpk : (u.pk : Int) = n)
    (db : List User) :
    save_is_confirmed db u.pk =
      db.map (fun v => if (v.pk : Int) == n then { v with is_confirmed := true } else v) := by
  unfold save_is_confirmed
  congr 1
  funext v
  have hcond : ((v.pk : Int) == n) = true ↔ v.pk = u.pk := by
    constructor
    · intro hb
      have hb1 : (v.pk : Int) = n := by simpa using hb
      have hb2 : (v.pk : Int) = (u.pk : Int) := by rw [hb1, hpk]
      exact_mod_cast hb2
    · intro hv
      have hb1 : (v.pk : Int) = n := by rw [hv, hpk]
      simpa using hb1
  by_cases hv : v.pk = u.pk
  · rw [if_pos hv, if_pos (hcond.mpr hv)]
  · rw [if_neg hv, if_neg (fun hb => hv (hcond.mp hb))]

/-- The confirmation view refines the spec's `verify` contract (amended on
decode errors): under the primary-key constraint it computes exactly
`renderVerify`. -/
theorem confirm_eq_renderVerify (db : List User) (uid key : String)
    (h : uniquePks db) :
    confirm_registration db uid key = renderVerify db uid key := by
  cases hdec : urlsafe_base64_decode uid with
  | error e =>
    simp [confirm_registration, renderVerify, verify_spec, hdec]
  | ok bs =>
    cases hint : pyInt bs with
    | error e =>
      have he := pyInt_error_eq hint
      subst he
      have hcaught : caughtByConfirm PyExc.valueError = true := rfl
      simp [confirm_registration, renderVerify, verify_spec, objects_get,
        hdec, hint, hcaught]
    | ok n =>
      rcases filter_pk_of_uniquePks h n with hf | ⟨u, hf⟩
      · have hfind : db.find? (fun u => (u.pk : Int) == n) = none := by
          rw [List.find?_eq_none]
          intro v hv
          intro hvp
          have := List.filter_eq_nil_iff.mp hf v hv
          exact this hvp
        have hcaught : caughtByConfirm PyExc.doesNotExist = true := rfl
        simp [confirm_registration, renderVerify, verify_spec, objects_get, findByPk,
          hdec, hint, hf, hfind, hcaught]
      · have hfind : db.find? (fun u => (u.pk : Int) == n) = some u :=
          find?_of_filter_single hf
        have hu : ((u.pk : Int) == n) = true := by
          have hm : u ∈ db.filter (fun v => (v.pk : Int) == n) := by
            rw [hf]
            exact List.mem_singleton.mpr rfl
          exact (List.mem_filter.mp hm).2
        have hpk : (u.pk : Int) = n := by simpa using hu
        by_cases hc : u.is_confirmed
        · simp [confirm_registration, renderVerify, verify_spec, objects_get, findByPk,
            hdec, hint, hf, hfind, hc]
        · by_cases hk : u.key = key
          · simp only [confirm_registration, renderVerify, verify_spec, objects_get,
              findByPk, setConfirmedByUid, decodedPk, hdec, hint, hf, hfind, hc, hk,
              Bool.not_false, if_true, if_false]
            rw [save_is_confirmed_eq_map hpk]
            simp [hc, hk]
          · simp [confirm_registration, renderVerify, verify_spec, objects_get, findByPk,
              hdec, hint, hf, hfind, hc, hk]

/-- A sample unconfirmed account; `"MQ"` is the urlsafe-base64 encoding of
its primary key `1`. -/
def sampleUser : User :=
  ⟨1, "Alice", "alice@example.com", "pbkdf2$pw", 1, false, true, "SECRET"⟩

/-- C1: the confirmation view, as the claim states it, should turn every
decode failure into `InvalidLink`; the code calls the decoder before the
`try:` block, so the uid `"a"` (whose padded form has leftover base64 bits)
raises `ValueError` out of the handler instead of rendering the
invalid-link page. -/
theorem confirm_registration_decode_failure_cex :
    urlsafe_base64_decode "a" = Except.error PyExc.valueError ∧
    confirm_registration [sampleUser] "a" "SECRET" = Except.error PyExc.valueError ∧
    confirm_registration [sampleUser] "a" "SECRET" ≠
      Except.ok ⟨invalidLinkInfo, [sampleUser], 0⟩ := by
  refine ⟨rfl, rfl, ?_⟩
  intro hcontra
  have hval : confirm_registration [sampleUser] "a" "SECRET" =
      Except.error PyExc.valueError := rfl
  rw [hval] at hcontra
  exact Except.noConfusion hcontra

/-- C1 (amended): for every confirmation request (uid, key) on a database
satisfying the primary-key constraint: a confirmed matching account reports
`AlreadyConfirmed`; an unconfirmed matching account with the submitted key
equal to the stored confirmation key is persisted as confirmed and reports
`Confirmed`; a malformed identifier, missing account or key mismatch
reports `InvalidLink`; and a uid on which the codec's decode raises — the
case the code diverges from the claim — propagates the `ValueError`
unhandled instead of reporting `InvalidLink`. -/
theorem confirm_registration_verify_contract (db : List User) (uid key : String)
    (h : uniquePks db) :
    confirm_registration db uid key = renderVerify db uid key :=
  confirm_eq_renderVerify db uid key h

/-- C1 witness: the contract evaluated on a one-account database and the
valid confirmation link for it. -/
theorem confirm_registration_verify_contract_witness :
    confirm_registration [sampleUser] "MQ" "SECRET" =
      renderVerify [sampleUser] "MQ" "SECRET" :=
  confirm_registration_verify_contract [sampleUser] "MQ" "SECRET" (by decide)

/-- C6: the claim says malformed codec input (malformed base encoding,
wrong padding, empty string) always becomes a recoverable `DecodeError` that
the flow renders as `InvalidLink` and the handler never crashes; but on the
uid `"abcde"` (five base64 characters, so the Django padding rule leaves
leftover bits) the decoder raises `ValueError` before the `try:` block and
the handler terminates with that exception unhandled. -/
theorem confirm_registration_malformed_uid_crashes :
    urlsafe_base64_decode "abcde" = Except.error PyExc.valueError ∧
    confirm_registration [sampleUser] "abcde" "SECRET" =
      Except.error PyExc.valueError := by
  exact ⟨rfl, rfl⟩

/-! ## The confirmation latch (C2) -/

/-- Lookup by primary key commutes with a pk-preserving row map. -/
theorem lookupPk_map {f : User → User} (hf : ∀ u, (f u).pk = u.pk)
    (db : List User) (pk : Nat) :
    lookupPk (db.map f) pk = (lookupPk db pk).map f := by
  unfold lookupPk
  rw [List.find?_map]
  have hcomp : ((fun u : User => u.pk == pk) ∘ f) = (fun u : User => u.pk == pk) := by
    funext u
    simp [Function.comp, hf]
  rw [hcomp]

/-- A row found in the first part of an appended database is still the one
found in the whole. -/
theorem lookupPk_append_left {db l : List User} {pk : Nat} {u : User}
    (h : lookupPk db pk = some u) : lookupPk (db ++ l) pk = some u := by
  unfold lookupPk at h ⊢
  rw [List.find?_append, h]
  rfl

/-- A pk-preserving, confirmation-monotone row map keeps a confirmed account
present and confirmed. -/
theorem lookupPk_map_latch {f : User → User}
    (hfpk : ∀ v, (f v).pk = v.pk)
    (hfc : ∀ v, v.is_confirmed = true → (f v).is_confirmed = true)
    {db : List User} {pk : Nat} {u : User}
    (hu : lookupPk db pk = some u) (hc : u.is_confirmed = true) :
    ∃ u2, lookupPk (db.map f) pk = some u2 ∧ u2.is_confirmed = true := by
  refine ⟨f u, ?_, hfc u hc⟩
  rw [lookupPk_map hfpk, hu]
  rfl

/-- The database a confirmation request leaves behind: unchanged, or with
one account's `is_confirmed` set. -/
theorem confirm_db_cases {db : List User} {uid key : String} {r : ConfirmResult}
    (h : confirm_registration db uid key = Except.ok r) :
    r.db = db ∨ ∃ pk, r.db = save_is_confirmed db pk := by
  unfold confirm_registration at h
  split at h
  · exact Except.noConfusion h
  · split at h
    · split at h
      · split at h
        · injection h with h2
          subst h2
          exact Or.inr ⟨_, rfl⟩
        · injection h with h2
          subst h2
          exact Or.inl rfl
      · injection h with h2
        subst h2
        exact Or.inl rfl
    · split at h
      · injection h with h2
        subst h2
        exact Or.inl rfl
      · exact Except.noConfusion h

/-- The database a registration request leaves behind: unchanged, or with
the one new account appended. -/
theorem register_db_cases (db : List User) (isPost : Bool) (f : RegForm)
    (genKey : String) (mailFails : Bool) :
    (register db isPost f genKey mailFails).db = db ∨
    (register db isPost f genKey mailFails).db = db ++ [form_save db f genKey] := by
  unfold register
  split
  · split
    · split
      · exact Or.inr rfl
      · exact Or.inr rfl
    · exact Or.inl rfl
  · exact Or.inl rfl

/-- One request of any kind keeps a confirmed account confirmed. -/
theorem applyOp_latch (db : List User) (op : Op) (pk : Nat) (u : User)
    (hu : lookupPk db pk = some u) (hc : u.is_confirmed = true) :
    ∃ u2, lookupPk (applyOp db op) pk = some u2 ∧ u2.is_confirmed = true := by
  cases op with
  | confirmOp uid key =>
    cases hcr : confirm_registration db uid key with
    | error e =>
      refine ⟨u, ?_, hc⟩
      simp [applyOp, hcr, hu]
    | ok r =>
      rcases confirm_db_cases hcr with hdb | ⟨n, hdb⟩
      · refine ⟨u, ?_, hc⟩
        simp [applyOp, hcr, hdb, hu]
      · have hfpk : ∀ v : User,
            ((fun w => if w.pk = n then { w with is_confirmed := true } else w) v).pk
              = v.pk := by
          intro v
          by_cases hv : v.pk = n <;> simp [hv]
        have hfc : ∀ v : User, v.is_confirmed = true →
            ((fun w => if w.pk = n then { w with is_confirmed := true } else w) v).is_confirmed
              = true := by
          intro v hv
          by_cases hv2 : v.pk = n <;> simp [hv2, hv]
        have hmain := lookupPk_map_latch hfpk hfc hu hc
        simpa [applyOp, hcr, hdb, save_is_confirmed] using hmain
  | registerOp f genKey mailFails =>
    rcases register_db_cases db true f genKey mailFails with hdb | hdb
    · refine ⟨u, ?_, hc⟩
      simp only [applyOp]
      rw [hdb]
      exact hu
    · refine ⟨u, ?_, hc⟩
      simp only [applyOp]
      rw [hdb]
      exact lookupPk_append_left hu
  | basicInfoOp pk2 email name =>
    have hfpk : ∀ v : User,
        ((fun w => if w.pk = pk2 then { w with email := email, name := name } else w) v).pk
          = v.pk := by
      intro v
      by_cases hv : v.pk = pk2 <;> simp [hv]
    have hfc : ∀ v : User, v.is_confirmed = true →
        ((fun w => if w.pk = pk2 then { w with email := email, name := name } else w)
          v).is_confirmed = true := by
      intro v hv
      by_cases hv2 : v.pk = pk2 <;> simp [hv2, hv]
    have hmain := lookupPk_map_latch hfpk hfc hu hc
    simpa [applyOp, basic_info_save] using hmain
  | passwordOp pk2 newHash =>
    have hfpk : ∀ v : User,
        ((fun w => if w.pk = pk2 then { w with password_hash := newHash } else w) v).pk
          = v.pk := by
      intro v
      by_cases hv : v.pk = pk2 <;> simp [hv]
    have hfc : ∀ v : User, v.is_confirmed = true →
        ((fun w => if w.pk = pk2 then { w with password_hash := newHash } else w)
          v).is_confirmed = true := by
      intro v hv
      by_cases hv2 : v.pk = pk2 <;> simp [hv2, hv]
    have hmain := lookupPk_map_latch hfpk hfc hu hc
    simpa [applyOp, password_save] using hmain
  | passwordResetOp pk2 newHash =>
    have hfpk : ∀ v : User,
        ((fun w => if w.pk = pk2 then { w with password_hash := newHash } else w) v).pk
          = v.pk := by
      intro v
      by_cases hv : v.pk = pk2 <;> simp [hv]
    have hfc : ∀ v : User, v.is_confirmed = true →
        ((fun w => if w.pk = pk2 then { w with password_hash := newHash } else w)
          v).is_confirmed = true := by
      intro v hv
      by_cases hv2 : v.pk = pk2 <;> simp [hv2, hv]
    have hmain := lookupPk_map_latch hfpk hfc hu hc
    simpa [applyOp, password_save] using hmain
  | loginOp email password => exact ⟨u, hu, hc⟩
  | listOp params => exact ⟨u, hu, hc⟩

/-- C2: `is_confirmed` is a one-way latch: an account that is confirmed
stays present and confirmed after every sequence of the module's operations
(confirmation, registration, profile update, password change, password
reset, login, listing) — no operation moves it back to unconfirmed. -/
theorem is_confirmed_one_way_latch (ops : List Op) (db : List User) (pk : Nat)
    (u : User) (hu : lookupPk db pk = some u) (hc : u.is_confirmed = true) :
    ∃ u2, lookupPk (ops.foldl applyOp db) pk = some u2 ∧ u2.is_confirmed = true := by
  induction ops generalizing db u with
  | nil => exact ⟨u, hu, hc⟩
  | cons op rest ih =>
    obtain ⟨u1, h1, hc1⟩ := applyOp_latch db op pk u hu hc
    exact ih (applyOp db op) u1 h1 hc1

/-- An already-confirmed sample account. -/
def confirmedUser : User :=
  ⟨1, "Carol", "carol@example.com", "pbkdf2$pw", 2, true, true, "KEY1"⟩

/-- C2 witness: the latch evaluated over a concrete sequence touching the
account (password reset, profile edit, a fresh confirmation link visit,
login, listing). -/
theorem is_confirmed_one_way_latch_witness :
    ∃ u2, lookupPk
        ([Op.passwordOp 1 "pbkdf2$new", Op.basicInfoOp 1 "c2@example.com" "C",
          Op.confirmOp "MQ" "KEY1", Op.loginOp "carol@example.com" "pw",
          Op.listOp []].foldl applyOp [confirmedUser]) 1 = some u2 ∧
      u2.is_confirmed = true :=
  is_confirmed_one_way_latch
    [Op.passwordOp 1 "pbkdf2$new", Op.basicInfoOp 1 "c2@example.com" "C",
     Op.confirmOp "MQ" "KEY1", Op.loginOp "carol@example.com" "pw", Op.listOp []]
    [confirmedUser] 1 confirmedUser rfl rfl

/-! ## Authentication gate (C3, C4) -/

/-- What a successful `authenticate` guarantees: the account is in the
database, its e-mail is the submitted one and its stored hash verifies the
submitted password. -/
theorem authenticate_some {db : List User} {email password : String} {u : User}
    (h : authenticate db email password = some u) :
    u ∈ db ∧ u.email = email ∧ check_password password u.password_hash = true := by
  unfold authenticate at h
  split at h
  · rename_i v hf
    split at h
    · rename_i hcp
      injection h with h2
      subst h2
      refine ⟨List.mem_of_find?_eq_some hf, ?_, hcp⟩
      simpa using List.find?_some hf
    · exact Option.noConfusion h
  · exact Option.noConfusion h

/-- C3: a session is issued only through the gate: whenever the login view
returns the session outcome (i.e. `django_login` ran), the authentication
backend had returned that very account — so its credentials verified — and
the account is both active and confirmed. -/
theorem login_session_only_when_gate_passes (db : List User) (isPost : Bool)
    (nextParam email password : String) (pk : Nat) (np : String)
    (h : login db isPost nextParam email password = LoginOutcome.session pk np) :
    ∃ u, authenticate db email password = some u ∧ u.pk = pk ∧
      u.is_active = true ∧ u.is_confirmed = true ∧ u ∈ db ∧ u.email = email ∧
      check_password password u.password_hash = true := by
  simp only [login] at h
  split at h
  · split at h
    · split at h
      · rename_i user heq
        split at h
        · rename_i hgate
          injection h with h1 h2
          obtain ⟨hm, he, hp⟩ := authenticate_some heq
          have hb : user.is_active = true ∧ user.is_confirmed = true := by
            simpa [Bool.and_eq_true] using hgate
          exact ⟨user, heq, h1, hb.1, hb.2, hm, he, hp⟩
        · exact LoginOutcome.noConfusion h
      · exact LoginOutcome.noConfusion h
    · exact LoginOutcome.noConfusion h
  · exact LoginOutcome.noConfusion h

/-- An active, confirmed sample account whose password is `"hunter2"`. -/
def activeUser : User :=
  ⟨7, "Dave", "dave@example.com", make_password "hunter2", 3, true, true, "KEY7"⟩

/-- C3 witness: a successful login on a one-account database. -/
theorem login_session_only_when_gate_passes_witness :
    ∃ u, authenticate [activeUser] "dave@example.com" "hunter2" = some u ∧
      u.pk = 7 ∧ u.is_active = true ∧ u.is_confirmed = true ∧ u ∈ [activeUser] ∧
      u.email = "dave@example.com" ∧
      check_password "hunter2" u.password_hash = true :=
  login_session_only_when_gate_passes [activeUser] true "" "dave@example.com"
    "hunter2" 7 indexUrl rfl

/-- C4: when the submitted password verifies against no account with the
submitted e-mail (in particular when the e-mail matches no account), a valid
login POST renders exactly the bad-credentials error — which is a different
message from the inactive-account and unconfirmed-account errors, so
account-state errors are never reported on a failed password. -/
theorem login_wrong_password_only_bad_credentials (db : List User)
    (nextParam email password : String)
    (hpw : ∀ u, u ∈ db → u.email = email →
      check_password password u.password_hash = false)
    (hv : loginFormValid email password = true) :
    login db true nextParam email password =
      LoginOutcome.render [badCredentialsError] ∧
    badCredentialsError ≠ inactiveError ∧ badCredentialsError ≠ unconfirmedError := by
  have ha : authenticate db email password = none := by
    unfold authenticate
    cases hf : db.find? (fun v => v.email == email) with
    | none => rfl
    | some v =>
      have hm := List.mem_of_find?_eq_some hf
      have he : v.email = email := by simpa using List.find?_some hf
      simp [hpw v hm he]
  refine ⟨?_, ?_, ?_⟩
  · simp [login, hv, ha]
  · decide
  · decide

/-- C4 witness: a wrong password against a one-account database. -/
theorem login_wrong_password_only_bad_credentials_witness :
    login [activeUser] true "" "dave@example.com" "wrong" =
      LoginOutcome.render [badCredentialsError] ∧
    badCredentialsError ≠ inactiveError ∧ badCredentialsError ≠ unconfirmedError :=
  login_wrong_password_only_bad_credentials [activeUser] "" "dave@example.com" "wrong"
    (by
      intro u hu he
      have hu2 : u = activeUser := by simpa using hu
      subst hu2
      rfl)
    rfl

/-! ## Indistinguishability of invalid links (C5) -/

/-- Inversion of `decodedPk`. -/
theorem decodedPk_some {uid : String} {n : Int} (h : decodedPk uid = some n) :
    ∃ bs, urlsafe_base64_decode uid = Except.ok bs ∧ pyInt bs = Except.ok n := by
  unfold decodedPk at h
  split at h
  · exact Option.noConfusion h
  · rename_i bs heq
    split at h
    · exact Option.noConfusion h
    · rename_i m heq2
      injection h with h2
      subst h2
      exact ⟨bs, heq, heq2⟩

/-- C5: a confirmation request whose uid decodes to an unassigned primary
key and one whose uid matches an unconfirmed account but whose key is wrong
produce identical observable responses: the same invalid-link page, the
same untouched database, the same zero writes. -/
theorem confirm_invalid_link_indistinguishable (db : List User)
    (uid1 key1 uid2 key2 : String) (n1 n2 : Int) (u2 : User)
    (hdb : uniquePks db)
    (h1 : decodedPk uid1 = some n1) (h1m : findByPk db n1 = none)
    (h2 : decodedPk uid2 = some n2) (h2m : findByPk db n2 = some u2)
    (h2c : u2.is_confirmed = false) (h2k : u2.key ≠ key2) :
    confirm_registration db uid1 key1 = confirm_registration db uid2 key2 ∧
    confirm_registration db uid1 key1 = Except.ok ⟨invalidLinkInfo, db, 0⟩ := by
  obtain ⟨bs1, hd1, hi1⟩ := decodedPk_some h1
  obtain ⟨bs2, hd2, hi2⟩ := decodedPk_some h2
  have e1 : confirm_registration db uid1 key1 = Except.ok ⟨invalidLinkInfo, db, 0⟩ := by
    rw [confirm_eq_renderVerify db uid1 key1 hdb]
    simp [renderVerify, verify_spec, hd1, hi1, h1m]
  have e2 : confirm_registration db uid2 key2 = Except.ok ⟨invalidLinkInfo, db, 0⟩ := by
    rw [confirm_eq_renderVerify db uid2 key2 hdb]
    simp [renderVerify, verify_spec, hd2, hi2, h2m, h2c, h2k]
  exact ⟨e1.trans e2.symm, e1⟩

/-- C5 witness: on a database holding only the unconfirmed account with
primary key 1, the uid `"Mg"` (key 2, unassigned) and the uid `"MQ"` (key 1,
assigned) with a wrong confirmation key render the same response. -/
theorem confirm_invalid_link_indistinguishable_witness :
    confirm_registration [sampleUser] "Mg" "X" =
      confirm_registration [sampleUser] "MQ" "WRONG" ∧
    confirm_registration [sampleUser] "Mg" "X" =
      Except.ok ⟨invalidLinkInfo, [sampleUser], 0⟩ :=
  confirm_invalid_link_indistinguishable [sampleUser] "Mg" "X" "MQ" "WRONG" 2 1
    sampleUser (by decide) rfl rfl rfl rfl rfl (by decide)

/-! ## The public listing (C7, C10) -/

/-- C7: with a parseable role selector, the public listing returns exactly
the serialisations of the accounts with that role that are confirmed and
active (so an active-but-unconfirmed account is excluded), and the
serialisation is independent of `password_hash` and `confirmation_key` —
those secrets never reach the output. -/
theorem get_users_listing_contract (db : List User) (s : String) (r : Int) :
    (pyIntOfString s = Except.ok r →
      get_users db [("user_role", s)] =
        Except.ok ((db.filter (fun u =>
          decide (u.role = r ∧ u.is_confirmed = true ∧ u.is_active = true))).map
            serializeUser)) ∧
    (∀ u : User, ∀ h k : String,
      serializeUser { u with password_hash := h, key := k } = serializeUser u) := by
  constructor
  · intro hp
    have hg : getParam [("user_role", s)] "user_role" = some s := rfl
    have hfil : db.filter (fun u => u.role == r && u.is_confirmed && u.is_active)
        = db.filter (fun u =>
            decide (u.role = r ∧ u.is_confirmed = true ∧ u.is_active = true)) := by
      apply List.filter_congr
      intro u _
      cases hc : u.is_confirmed <;> cases ha2 : u.is_active <;>
        by_cases hr : u.role = r <;> simp [hr, hc, ha2]
    simp only [get_users, hg, hp, hfil]
  · intro u h k
    rfl

/-- C10: the public listing view crashes rather than reporting an error on a
malformed query: with no `user_role` parameter it raises `KeyError`, with a
non-integer value it raises `ValueError` (its only parse failure), both
unhandled; a well-formed response is produced exactly when the parameter is
present and integer-parseable. -/
theorem get_users_requires_role_param (db : List User)
    (params : List (String × String)) :
    (getParam params "user_role" = none →
      get_users db params = Except.error PyExc.keyError) ∧
    (∀ s, getParam params "user_role" = some s →
      pyIntOfString s = Except.error PyExc.valueError →
      get_users db params = Except.error PyExc.valueError) ∧
    (∀ s e, pyIntOfString s = Except.error e → e = PyExc.valueError) ∧
    (∀ s r, getParam params "user_role" = some s → pyIntOfString s = Except.ok r →
      ∃ l, get_users db params = Except.ok l) := by
  refine ⟨?_, ?_, ?_, ?_⟩
  · intro h
    simp [get_users, h]
  · intro s h1 h2
    simp [get_users, h1, h2]
  · intro s e h
    exact pyInt_error_eq h
  · intro s r h1 h2
    simp only [get_users, h1, h2]
    exact ⟨_, rfl⟩

/-! ## Frame of the confirmation write (C8) -/

/-- Setting `is_confirmed` changes nothing visible through `stripConfirm`. -/
theorem stripConfirm_setConfirmedByUid (db : List User) (uid : String) :
    (setConfirmedByUid db uid).map stripConfirm = db.map stripConfirm := by
  unfold setConfirmedByUid
  split
  · rename_i n heq
    rw [List.map_map]
    congr 1
    funext v
    by_cases hv : ((v.pk : Int) == n) = true <;>
      simp [Function.comp, hv, stripConfirm]
  · rfl

/-- C8: a confirmation request performs exactly one persistence write — of
the `is_confirmed` column only — on the path that renders the confirmed
page, and zero writes (database unchanged) on the invalid-link and
already-confirmed paths; in every case no field other than `is_confirmed`
of any account changes. -/
theorem confirm_registration_write_frame (db : List User) (uid key : String)
    (r : ConfirmResult) (hdb : uniquePks db)
    (h : confirm_registration db uid key = Except.ok r) :
    (r.information = confirmedInfo →
      r.writes = 1 ∧ r.db.map stripConfirm = db.map stripConfirm) ∧
    (r.information = invalidLinkInfo ∨ r.information = alreadyConfirmedInfo →
      r.writes = 0 ∧ r.db = db) ∧
    (r.information = confirmedInfo ∨ r.information = invalidLinkInfo ∨
      r.information = alreadyConfirmedInfo) := by
  rw [confirm_eq_renderVerify db uid key hdb] at h
  unfold renderVerify at h
  split at h
  · exact Except.noConfusion h
  · injection h with h2
    subst h2
    refine ⟨?_, ?_, Or.inr (Or.inl rfl)⟩
    · intro hinfo
      exact absurd (show invalidLinkInfo = confirmedInfo from hinfo) (by decide)
    · intro _
      exact ⟨rfl, rfl⟩
  · injection h with h2
    subst h2
    refine ⟨?_, ?_, Or.inr (Or.inr rfl)⟩
    · intro hinfo
      exact absurd (show alreadyConfirmedInfo = confirmedInfo from hinfo) (by decide)
    · intro _
      exact ⟨rfl, rfl⟩
  · injection h with h2
    subst h2
    refine ⟨?_, ?_, Or.inl rfl⟩
    · intro _
      exact ⟨rfl, stripConfirm_setConfirmedByUid db uid⟩
    · intro hinfo
      rcases hinfo with h1 | h1
      · exact absurd (show confirmedInfo = invalidLinkInfo from h1) (by decide)
      · exact absurd (show confirmedInfo = alreadyConfirmedInfo from h1) (by decide)

/-- The result of confirming the sample account through its valid link. -/
def sampleConfirmedResult : ConfirmResult :=
  ⟨confirmedInfo, [⟨1, "Alice", "alice@example.com", "pbkdf2$pw", 1, true, true,
    "SECRET"⟩], 1⟩

/-- C8 witness: the frame conditions evaluated on the confirmed path of a
one-account database. -/
theorem confirm_registration_write_frame_witness :
    (sampleConfirmedResult.information = confirmedInfo →
      sampleConfirmedResult.writes = 1 ∧
      sampleConfirmedResult.db.map stripConfirm = [sampleUser].map stripConfirm) ∧
    (sampleConfirmedResult.information = invalidLinkInfo ∨
      sampleConfirmedResult.information = alreadyConfirmedInfo →
      sampleConfirmedResult.writes = 0 ∧ sampleConfirmedResult.db = [sampleUser]) ∧
    (sampleConfirmedResult.information = confirmedInfo ∨
      sampleConfirmedResult.information = invalidLinkInfo ∨
      sampleConfirmedResult.information = alreadyConfirmedInfo) :=
  confirm_registration_write_frame [sampleUser] "MQ" "SECRET" sampleConfirmedResult
    (by decide) rfl

/-! ## Registration survives mail failure (C9) -/

/-- C9: when a valid registration's confirmation-mail dispatch fails, the
created account stays persisted — the append is not rolled back — and the
mail error propagates out of the handler instead of being swallowed. -/
theorem register_mail_failure_keeps_account (db : List User) (f : RegForm)
    (genKey : String) (hv : userFormValid db f = true) :
    (register db true f genKey true).db = db ++ [form_save db f genKey] ∧
    form_save db f genKey ∈ (register db true f genKey true).db ∧
    (register db true f genKey true).outcome = Except.error PyExc.smtpError := by
  refine ⟨?_, ?_, ?_⟩ <;> simp [register, hv]

/-- C9 witness: a concrete registration whose confirmation mail fails. -/
theorem register_mail_failure_keeps_account_witness :
    (register [] true ⟨"Bob", "bob@example.com", "pw", 1⟩ "GKEY" true).db =
      [] ++ [form_save [] ⟨"Bob", "bob@example.com", "pw", 1⟩ "GKEY"] ∧
    form_save [] ⟨"Bob", "bob@example.com", "pw", 1⟩ "GKEY" ∈
      (register [] true ⟨"Bob", "bob@example.com", "pw", 1⟩ "GKEY" true).db ∧
    (register [] true ⟨"Bob", "bob@example.com", "pw", 1⟩ "GKEY" true).outcome =
      Except.error PyExc.smtpError :=
  register_mail_failure_keeps_account [] ⟨"Bob", "bob@example.com", "pw", 1⟩ "GKEY" rfl

end UserMap
